import Mathlib

/-!
Shallow embedding of the census ETL pipeline
(`src/census_data.py`, `src/sql_database.py`).

The cleaning code works on pandas DataFrames whose cells are strings
fetched from a JSON array-of-arrays API response; a cell may become
missing (NaN) only through the padding of `str.split(..., expand=True)`
and through outer joins.  We model a DataFrame as a column-name list
plus rows of `Option String` cells (none = NaN), and each pandas
operation used by the source as an explicit Lean function.

The loader (`sql_database.py`) inserts CSV rows into SQLite tables one
at a time, catching `sqlite3.IntegrityError`.  We model the SQLite
behaviour relevant to this schema (one INTEGER PRIMARY KEY column,
untyped remaining columns): a wrong value count raises
OperationalError at statement preparation, a non-integer text bound to
the INTEGER PRIMARY KEY raises IntegrityError ("datatype mismatch"),
and a duplicate key raises IntegrityError ("UNIQUE constraint
failed").
-/

set_option autoImplicit false

/-- Decidable equality for `Except`, so concrete runs of the fallible
operations can be checked by `decide`. -/
instance {ε α : Type} [DecidableEq ε] [DecidableEq α] : DecidableEq (Except ε α) := fun a b =>
  match a, b with
  | .ok x, .ok y =>
    if h : x = y then isTrue (by rw [h]) else isFalse (by intro hc; injection hc; contradiction)
  | .error x, .error y =>
    if h : x = y then isTrue (by rw [h]) else isFalse (by intro hc; injection hc; contradiction)
  | .ok _, .error _ => isFalse (by intro hc; exact Except.noConfusion hc)
  | .error _, .ok _ => isFalse (by intro hc; exact Except.noConfusion hc)

namespace CensusETL

/-! ### Python string primitives (ASCII fragment used by the source) -/

/-- Does the second list start with the first?  (`List.isPrefixOf` with
structural recursion, kept local so every helper reduces in the kernel.) -/
def seqStarts {α : Type} [BEq α] : List α → List α → Bool
  | [], _ => true
  | _ :: _, [] => false
  | a :: as, b :: bs => a == b && seqStarts as bs

/-- Python's substring test `needle in hay` on character lists. -/
def containsSeq {α : Type} [BEq α] : List α → List α → Bool
  | needle, [] => needle.isEmpty
  | needle, b :: t₂ => seqStarts needle (b :: t₂) || containsSeq needle t₂

/-- Python's `needle in hay` substring containment on strings. -/
def containsSub (needle hay : String) : Bool := containsSeq needle.data hay.data

/-- Python's `s.endswith(suffix)`. -/
def pyEndsWith (s suffix : String) : Bool := seqStarts suffix.data.reverse s.data.reverse

/-- Python's `str.lower` on the ASCII letters (all header names are ASCII). -/
def pyLowerChar (c : Char) : Char :=
  if 'A' ≤ c ∧ c ≤ 'Z' then Char.ofNat (c.toNat + 32) else c

/-- Python's `s.lower()`. -/
def pyLower (s : String) : String := ⟨s.data.map pyLowerChar⟩

/-- Python's whitespace class for `str.strip` (ASCII part). -/
def isPySpace (c : Char) : Bool :=
  c = ' ' || c = '\t' || c = '\n' || c = '\r' || c = Char.ofNat 11 || c = Char.ofNat 12

/-- Python's `s.strip()`: remove leading and trailing whitespace. -/
def pyStrip (s : String) : String :=
  ⟨((s.data.dropWhile isPySpace).reverse.dropWhile isPySpace).reverse⟩

/-- Fuelled worker for `pySplit`; the fuel is an upper bound on the number
of characters still to be consumed, so `length + 1` always suffices. -/
def splitCharsF : Nat → List Char → List Char → List (List Char)
  | 0, _, s => [s]
  | fuel + 1, sep, s =>
    if !sep.isEmpty && seqStarts sep s then
      [] :: splitCharsF fuel sep (s.drop sep.length)
    else
      match s with
      | [] => [[]]
      | c :: rest =>
        match splitCharsF fuel sep rest with
        | [] => [[c]]
        | p :: ps => (c :: p) :: ps

/-- Python's `s.split(sep)` for a non-empty separator (the source only
splits on the literal `"; "`). -/
def pySplit (s sep : String) : List String :=
  (splitCharsF (s.data.length + 1) sep.data s.data).map (fun l => ⟨l⟩)

/-- A DataFrame cell: `none` is pandas NaN, `some s` a string value. -/
abbrev Cell := Option String

/-- Python's `str(x)` as applied by `astype(str)`: NaN prints as "nan". -/
def pyStr : Cell → String
  | some s => s
  | none => "nan"

/-! ### DataFrame embedding -/

/-- A pandas DataFrame as the source uses it: named columns, rows of
string-or-NaN cells aligned positionally with the columns. -/
structure DataFrame where
  cols : List String
  rows : List (List Cell)
deriving DecidableEq

/-- Cell of a row at a position (out of range reads as NaN; the pipeline
keeps every row exactly as long as the column list). -/
def cellAt (r : List Cell) (i : Nat) : Cell := (r.get? i).getD none

/-- First index of a column label, scanning from offset `n`. -/
def idxAux (c : String) : List String → Nat → Option Nat
  | [], _ => none
  | x :: xs, n => if x = c then some n else idxAux c xs (n + 1)

/-- Index of the first column with the given label. -/
def DataFrame.idxOf? (df : DataFrame) (c : String) : Option Nat := idxAux c df.cols 0

/-- Value of column `c` in row `n`: `none` when the column or row is
absent, `some cell` otherwise. -/
def colValue (df : DataFrame) (c : String) (n : Nat) : Option Cell :=
  match df.idxOf? c, df.rows.get? n with
  | some i, some r => some (cellAt r i)
  | _, _ => none

/-- `df[c] = df[c].map f` — in-place update of one existing column
(every call site in the pipeline updates a column that is present). -/
def mapCol (df : DataFrame) (c : String) (f : Cell → Cell) : DataFrame :=
  match df.idxOf? c with
  | some i => { cols := df.cols, rows := df.rows.map (fun r => r.set i (f (cellAt r i))) }
  | none => df

/-- `df[c] = vals`: overwrite an existing column or append a new one at
the end, as pandas column assignment does. -/
def setCol (df : DataFrame) (c : String) (vals : List Cell) : DataFrame :=
  match df.idxOf? c with
  | some i => { cols := df.cols, rows := df.rows.zipWith (fun r v => r.set i v) vals }
  | none => { cols := df.cols ++ [c], rows := df.rows.zipWith (fun r v => r ++ [v]) vals }

/-- Keep the entries of `r` whose mask bit is true (positional column mask). -/
def maskKeep {α : Type} (mask : List Bool) (r : List α) : List α :=
  (mask.zip r).filterMap (fun p => if p.1 then some p.2 else none)

/-- `df.drop(columns=names)`: remove every column whose label is listed
(each call site drops labels that are present, so no KeyError arises). -/
def dropCols (df : DataFrame) (names : List String) : DataFrame :=
  { cols := df.cols.filter (fun c => !names.contains c),
    rows := df.rows.map (maskKeep (df.cols.map (fun c => !names.contains c))) }

/-- `df[order]` — column selection/reordering; fails (pandas KeyError)
when a requested label is absent. -/
def selectCols (df : DataFrame) (order : List String) : Option DataFrame :=
  if order.all (fun c => df.cols.contains c) then
    some { cols := order,
           rows := df.rows.map (fun r =>
             order.map (fun c =>
               match df.idxOf? c with
               | some i => cellAt r i
               | none => none)) }
  else none

/-! ### `census_data.py` -/

/-- `DESIRED_COLUMNS` (census_data.py line 15). -/
def DESIRED_COLUMNS : List String :=
  ["geo_id", "state", "State_Name", "county", "County_Name", "tract"]

/-- `dp_dictionary` (census_data.py line 129): rename map of the
population-distribution dataset. -/
def dpDictionary : List (String × String) :=
  [("DP1_0078C", "white_population"),
   ("DP1_0079C", "black_african_american_population"),
   ("DP1_0080C", "american_indian_alaskan_native_population"),
   ("DP1_0081C", "asian_population"),
   ("DP1_0082C", "native_hawaiian_and_other_pacific_islander_population"),
   ("DP1_0083C", "Other_race_population")]

/-- `dataframe.rename(columns={old: dict.get(old, old) for old in columns})`
(census_data.py lines 140-144): unmapped labels pass through unchanged. -/
def renameWith (dict : List (String × String)) (df : DataFrame) : DataFrame :=
  { cols := df.cols.map (fun c => (dict.lookup c).getD c), rows := df.rows }

/-- One row of a source frame re-expressed in the target column order;
labels absent from the source become NaN.  pandas `concat` aligns by
label like this; the pipeline only concatenates frames with identical
headers (one per state, same API variable list). -/
def reindexRow (srcCols tgtCols : List String) (r : List Cell) : List Cell :=
  tgtCols.map (fun c =>
    match idxAux c srcCols 0 with
    | some i => cellAt r i
    | none => none)

/-- `pd.concat(frames, ignore_index=True)` (census_data.py line 149)
for the identical-header frames the pipeline produces. -/
def concatDfs : List DataFrame → DataFrame
  | [] => { cols := [], rows := [] }
  | d₀ :: rest =>
    { cols := d₀.cols,
      rows := d₀.rows ++ (rest.map (fun d => d.rows.map (reindexRow d.cols d₀.cols))).flatten }

/-- `df[c] = df[c].astype(str)` (census_data.py lines 85-87). -/
def astypeStr (df : DataFrame) (c : String) : DataFrame :=
  mapCol df c (fun cell => some (pyStr cell))

/-- `add_geo_id` (census_data.py lines 70-93): coerce the three code
columns to strings, then append `geo_id` as their concatenation.
Fails (pandas KeyError) when one of the named columns is absent. -/
def add_geo_id (df : DataFrame) (stateCol countyCol tractCol : String) : Option DataFrame :=
  match df.idxOf? stateCol, df.idxOf? countyCol, df.idxOf? tractCol with
  | some i, some j, some k =>
    let df1 := astypeStr (astypeStr (astypeStr df stateCol) countyCol) tractCol
    some (setCol df1 "geo_id"
      (df1.rows.map (fun r => some (pyStr (cellAt r i) ++ pyStr (cellAt r j) ++ pyStr (cellAt r k)))))
  | _, _, _ => none

/-- The parts `NAME.str.split("; ")` produces for one cell (pandas
leaves a NaN cell as NaN; in the pipeline every NAME cell is a string). -/
def nameParts (c : Cell) : List Cell :=
  match c with
  | some s => (pySplit s "; ").map some
  | none => []

/-- Number of columns `str.split("; ", expand=True)` produces: the
maximum split arity over the rows. -/
def splitWidth (df : DataFrame) (i : Nat) : Nat :=
  (df.rows.map (fun r => (nameParts (cellAt r i)).length)).foldr max 0

/-- Pad a split row on the right with NaN up to the expanded width. -/
def padTo (w : Nat) (l : List Cell) : List Cell := l ++ List.replicate (w - l.length) none

/-- `preprocess_name_column` (census_data.py lines 43-66).
`df[["Census_Tract","County_Name","State_Name"]] = df["NAME"].str.split("; ", expand=True)`
appends the three columns (they are absent at every call site), and
raises ValueError unless the expanded split has exactly three columns;
then `Census_Tract` and `NAME` are dropped and the two surviving name
columns stripped. -/
def preprocess_name_column (df : DataFrame) : Except String DataFrame :=
  match df.idxOf? "NAME" with
  | none => .error "KeyError: NAME"
  | some i =>
    let w := splitWidth df i
    if w = 3 then
      let df1 : DataFrame :=
        { cols := df.cols ++ ["Census_Tract", "County_Name", "State_Name"],
          rows := df.rows.map (fun r => r ++ padTo w (nameParts (cellAt r i))) }
      let df2 := dropCols df1 ["Census_Tract", "NAME"]
      let df3 := mapCol df2 "State_Name" (Option.map pyStrip)
      let df4 := mapCol df3 "County_Name" (Option.map pyStrip)
      .ok df4
    else .error "ValueError: Columns must be same length as key"

/-- `new_order = DESIRED_COLUMNS + remaining_columns`
(census_data.py lines 157-160). -/
def newColumnOrder (cols : List String) : List String :=
  DESIRED_COLUMNS ++ cols.filter (fun c => !DESIRED_COLUMNS.contains c)

/-- `compiled = compiled[new_order]` (census_data.py line 161). -/
def reorder (df : DataFrame) : Option DataFrame := selectCols df (newColumnOrder df.cols)

/-- The shared shape of `clean_population_distribution_data` /
`clean_housing_characteristics_data` / `clean_community_resilience_data`
(census_data.py lines 117-162), parametric in the per-state frames the
fetcher returned and in the dataset's rename dictionary: rename,
concatenate, add `geo_id` from state/county/tract, split the NAME
column, reorder.  `none` when a pandas step raises. -/
def cleanPipeline (dict : List (String × String)) (dfs : List DataFrame) : Option DataFrame :=
  let renamed := dfs.map (renameWith dict)
  let compiled := concatDfs renamed
  match add_geo_id compiled "state" "county" "tract" with
  | none => none
  | some g =>
    match preprocess_name_column g with
    | .ok p => reorder p
    | .error _ => none

/-! ### The merge step (census_data.py lines 331-344)

`pd.merge(a, b, on=[six identifier columns], how="outer")`.  We
abstract the six join columns of a normalized table into a single key
(the list of their six values) and keep the remaining columns as a
positional row, which is how the join compares records. -/

/-- A normalized table as the merge sees it: the six-column join key
per row plus `width` non-key columns. -/
structure KTable where
  width : Nat
  rows : List (List String × List Cell)
deriving DecidableEq

/-- The join keys present in a table. -/
def keys (t : KTable) : List (List String) := t.rows.map Prod.fst

/-- The NaN padding an outer join gives the non-matching side. -/
def nullRow (w : Nat) : List Cell := List.replicate w none

/-- `pd.merge(t₁, t₂, on=key, how="outer")`: matched keys pair up
(cartesian on duplicates), unmatched rows of either side survive with
the other side's columns NaN. -/
def outerJoin (t₁ t₂ : KTable) : KTable :=
  { width := t₁.width + t₂.width,
    rows :=
      (t₁.rows.flatMap (fun kr =>
        let ms := t₂.rows.filter (fun kr₂ => kr₂.1 == kr.1)
        if ms.isEmpty then [(kr.1, kr.2 ++ nullRow t₂.width)]
        else ms.map (fun kr₂ => (kr.1, kr.2 ++ kr₂.2))))
      ++ ((t₂.rows.filter (fun kr₂ => !t₁.rows.any (fun kr => kr.1 == kr₂.1))).map
          (fun kr₂ => (kr₂.1, nullRow t₁.width ++ kr₂.2))) }

/-- `process_census_data_to_csv`'s two sequential outer merges
(census_data.py lines 331-344): (dp ⋈ dhc) ⋈ cre. -/
def mergeCensus (dp dhc cre : KTable) : KTable := outerJoin (outerJoin dp dhc) cre

/-! ### `sql_database.py` -/

/-- The substrings whose presence makes `insert_tables_to_database`
quote a column name (sql_database.py line 50) — verbatim from the
source, including the empty string and the duplicated comma. -/
def quoteChars : List String := [" ", ",", "&", ".", "", ","]

/-- `any(c in column for c in [" ", ",", "&", ".", "", ","])`. -/
def needsQuote (column : String) : Bool :=
  quoteChars.any (fun c => containsSub c column)

/-- How one non-primary-key header is written into the CREATE TABLE
statement (sql_database.py lines 47-55). -/
def renderColumn (column : String) : String :=
  if needsQuote column then "\x22" ++ column ++ "\x22" else column

/-- The first header containing "geo_id" case-insensitively
(sql_database.py lines 38-42). -/
def findGeoId (headers : List String) : Option String :=
  headers.find? (fun h => containsSub "geo_id" (pyLower h))

/-- Column order of the created table (sql_database.py line 56): the
primary-key column first, then every other header in original order.
(The quoting of `renderColumn` is SQL surface syntax and does not
change a column's name.) -/
def tableCols (headers : List String) (pk : String) : List String :=
  pk :: headers.filter (fun c => !(c == pk))

/-- A SQLite table as the loader builds it: declared columns (primary
key first) and the stored rows, each keyed by its INTEGER PRIMARY KEY
value. -/
structure Table where
  cols : List String
  pkRows : List (Int × List String)
deriving DecidableEq

/-- Insert failure modes reachable in this schema, tagged by the
`sqlite3` exception class CPython raises for them (verified against
`sqlite3`: duplicate key → IntegrityError "UNIQUE constraint failed",
non-integer text bound to the INTEGER PRIMARY KEY → IntegrityError
"datatype mismatch" (SQLITE_MISMATCH), wrong value count →
OperationalError "table has N columns but M values were supplied"). -/
inductive InsertError where
  | pkConflict
  | datatypeMismatch
  | arityMismatch
deriving DecidableEq

/-- Which errors the `except sqlite3.IntegrityError: pass` handler
(sql_database.py lines 69-70) catches. -/
def isIntegrityError : InsertError → Bool
  | .pkConflict => true
  | .datatypeMismatch => true
  | .arityMismatch => false

/-- Digit-string to number, `none` on any non-digit. -/
def digitsToNat : List Char → Option Nat
  | [] => none
  | ds =>
    if ds.all Char.isDigit then
      some (ds.foldl (fun n c => n * 10 + (c.toNat - 48)) 0)
    else none

/-- SQLite's INTEGER-affinity coercion of a bound text value for the
rowid (INTEGER PRIMARY KEY) column: a well-formed integer literal
converts, anything else is a datatype mismatch. -/
def sqliteInt? (s : String) : Option Int :=
  match s.data with
  | '-' :: ds => (digitsToNat ds).map (fun n => -(n : Int))
  | '+' :: ds => (digitsToNat ds).map (fun n => (n : Int))
  | ds => (digitsToNat ds).map (fun n => (n : Int))

/-- One `INSERT INTO t VALUES (?, ..., ?)` (sql_database.py lines
65-68): the row's values bind positionally to the table's declared
column order, so the primary-key column receives the row's first
value. -/
def insertRow (t : Table) (row : List String) : Except InsertError Table :=
  if row.length ≠ t.cols.length then .error .arityMismatch
  else
    match sqliteInt? ((row.get? 0).getD "") with
    | none => .error .datatypeMismatch
    | some n =>
      if t.pkRows.any (fun pr => pr.1 == n) then .error .pkConflict
      else .ok { t with pkRows := t.pkRows ++ [(n, row)] }

/-- The row loop (sql_database.py lines 61-70): insert each row; on
`sqlite3.IntegrityError` drop that row and continue; any other
exception propagates and aborts. -/
def insertRows (t : Table) : List (List String) → Except InsertError Table
  | [] => .ok t
  | r :: rs =>
    match insertRow t r with
    | .ok t' => insertRows t' rs
    | .error e => if isIntegrityError e then insertRows t rs else .error e

/-- One discovered file: its name and parsed CSV content. -/
structure CsvFile where
  name : String
  headers : List String
  rows : List (List String)
deriving DecidableEq

/-- The database: tables by name. -/
abbrev Db := List (String × Table)

/-- `os.path.splitext(file)[0]` for a file whose name ends in ".csv". -/
def stripCsvExt (name : String) : String := ⟨name.data.take (name.data.length - 4)⟩

/-- Store a table under a name (create or replace). -/
def setTable (db : Db) (name : String) (t : Table) : Db :=
  match db.lookup name with
  | some _ => db.map (fun p => if p.1 == name then (p.1, t) else p)
  | none => db ++ [(name, t)]

/-- Processing of one discovered file by `insert_tables_to_database`
(sql_database.py lines 28-70): non-CSV names are not processed; a
header set without a "geo_id"-like column is skipped (diagnostic
printed, database untouched); otherwise the table is created if absent
(`CREATE TABLE IF NOT EXISTS`) and the rows inserted. -/
def loadFile (db : Db) (f : CsvFile) : Except InsertError Db :=
  if !pyEndsWith f.name ".csv" then .ok db
  else
    match findGeoId f.headers with
    | none => .ok db
    | some pk =>
      let name := stripCsvExt f.name
      let t := (db.lookup name).getD { cols := tableCols f.headers pk, pkRows := [] }
      match insertRows t f.rows with
      | .ok t' => .ok (setTable db name t')
      | .error e => .error e

/-- The loader's walk over the discovered files: an uncaught insert
error aborts the whole run. -/
def loadAll (db : Db) : List CsvFile → Except InsertError Db
  | [] => .ok db
  | f :: fs =>
    match loadFile db f with
    | .ok db' => loadAll db' fs
    | .error e => .error e

/-! ### Helper lemmas -/

theorem containsSeq_nil {α : Type} [BEq α] (l : List α) : containsSeq ([] : List α) l = true := by
cases l <;> simp [containsSeq, seqStarts]

theorem containsSub_empty (s : String) : containsSub "" s = true := by
have h : ("" : String).data = [] := rfl
unfold containsSub
rw [h]
exact containsSeq_nil s.data

theorem mapCol_cols (df : DataFrame) (c : String) (f : Cell → Cell) :
    (mapCol df c f).cols = df.cols := by
unfold mapCol
cases df.idxOf? c <;> rfl

theorem idxAux_eq_none (c : String) (l : List String) (n : Nat) (h : c ∉ l) :
    idxAux c l n = none := by
induction l generalizing n with
| nil => rfl
| cons x xs ih =>
  simp only [List.mem_cons, not_or] at h
  rw [idxAux, if_neg (fun hc => h.1 hc.symm)]
  exact ih (n + 1) h.2

theorem idxAux_append_of_not_mem (c : String) (l₁ l₂ : List String) (n : Nat) (h : c ∉ l₁) :
    idxAux c (l₁ ++ l₂) n = idxAux c l₂ (n + l₁.length) := by
induction l₁ generalizing n with
| nil => simp
| cons x xs ih =>
  simp only [List.mem_cons, not_or] at h
  rw [List.cons_append, idxAux, if_neg (fun hc => h.1 hc.symm), ih (n + 1) h.2]
  congr 1
  simp
  omega

theorem zipWith_get? {α β γ : Type} (f : α → β → γ) (as : List α) (bs : List β) (n : Nat)
    (a : α) (b : β) (ha : as.get? n = some a) (hb : bs.get? n = some b) :
    (List.zipWith f as bs).get? n = some (f a b) := by
induction as generalizing bs n with
| nil => simp at ha
| cons x xs ih =>
  cases bs with
  | nil => simp at hb
  | cons y ys =>
    cases n with
    | zero =>
      simp only [List.get?] at ha hb
      cases ha; cases hb; rfl
    | succ m =>
      simp only [List.get?] at ha hb
      exact ih ys m ha hb

theorem maskKeep_cons {α : Type} (b : Bool) (m : List Bool) (x : α) (r : List α) :
    maskKeep (b :: m) (x :: r) = if b then x :: maskKeep m r else maskKeep m r := by
unfold maskKeep
rw [List.zip_cons_cons, List.filterMap_cons]
cases b <;> simp

theorem maskKeep_append {α : Type} (m₁ m₂ : List Bool) (r₁ r₂ : List α)
    (h : m₁.length = r₁.length) :
    maskKeep (m₁ ++ m₂) (r₁ ++ r₂) = maskKeep m₁ r₁ ++ maskKeep m₂ r₂ := by
induction m₁ generalizing r₁ with
| nil =>
  cases r₁ with
  | nil => rfl
  | cons x xs => simp at h
| cons b bs ih =>
  cases r₁ with
  | nil => simp at h
  | cons x xs =>
    simp only [List.length_cons, Nat.succ.injEq] at h
    simp only [List.cons_append, maskKeep_cons, ih xs h]
    cases b <;> simp

theorem maskKeep_length {α γ : Type} (g : γ → Bool) (l : List γ) (r : List α)
    (h : r.length = l.length) :
    (maskKeep (l.map g) r).length = (l.filter g).length := by
induction l generalizing r with
| nil =>
  cases r with
  | nil => rfl
  | cons x xs => simp at h
| cons c cs ih =>
  cases r with
  | nil => simp at h
  | cons x xs =>
    simp only [List.length_cons, Nat.succ.injEq] at h
    simp only [List.map_cons, maskKeep_cons, List.filter_cons]
    cases hg : g c <;> simp [ih xs h]

theorem foldr_max_all_eq (l : List Nat) (hne : l ≠ []) (h : ∀ x ∈ l, x = 3) :
    l.foldr max 0 = 3 := by
induction l with
| nil => exact absurd rfl hne
| cons x xs ih =>
  have hx : x = 3 := h x (List.mem_cons_self x xs)
  cases xs with
  | nil => simp [hx]
  | cons y ys =>
    rw [List.foldr_cons, ih (by simp) (fun z hz => h z (List.mem_cons_of_mem x hz)), hx]
    simp

theorem find?_first {α : Type} (p : α → Bool) (l : List α) (b : α) (h : l.find? p = some b) :
    p b = true ∧ ∃ pre post, l = pre ++ b :: post ∧ ∀ a ∈ pre, p a = false := by
induction l with
| nil => simp [List.find?] at h
| cons x xs ih =>
  rw [List.find?] at h
  cases hx : p x with
  | true =>
    rw [hx] at h
    cases h
    exact ⟨hx, [], xs, rfl, by simp⟩
  | false =>
    rw [hx] at h
    obtain ⟨hb, pre, post, heq, hall⟩ := ih h
    exact ⟨hb, x :: pre, post, by rw [heq, List.cons_append], fun a ha => by
      rcases List.mem_cons.mp ha with h1 | h2
      · rw [h1]; exact hx
      · exact hall a h2⟩

/-! ### C1 — quoting of non-primary-key column names -/

/-- C1 counterexample: the header "white_population" contains none of
space, comma, ampersand, period, yet the loader quotes it in the
CREATE TABLE statement (the quoting test also checks the empty string,
which every name contains), refuting "quoted if and only if the name
contains one of those characters". -/
theorem c1_counterexample :
    needsQuote "white_population" = true ∧
    containsSub " " "white_population" = false ∧
    containsSub "," "white_population" = false ∧
    containsSub "&" "white_population" = false ∧
    containsSub "." "white_population" = false ∧
    renderColumn "white_population" = "\x22white_population\x22" := by decide

/-- C1 (amended): in the loader's schema generation every
non-primary-key column name is quoted in the CREATE TABLE statement,
whatever characters it contains, because the source's character list
`[" ", ",", "&", ".", "", ","]` includes the empty string and Python's
`"" in column` is true for every string. -/
theorem c1_every_column_quoted (column : String) :
    needsQuote column = true ∧ renderColumn column = "\x22" ++ column ++ "\x22" := by
have h : needsQuote column = true := by
  unfold needsQuote
  rw [List.any_eq_true]
  exact ⟨"", by decide, containsSub_empty column⟩
exact ⟨h, by simp [renderColumn, h]⟩

/-! ### C4 — which insert errors are caught -/

/-- C4 counterexample: inserting the row ["abc", "x"] fails with a
datatype mismatch on the INTEGER PRIMARY KEY — an IntegrityError that
is not a primary-key uniqueness violation — yet the loader's handler
catches it, discards the row and continues, refuting "the PK-conflict
case is the only insert error that is caught". -/
theorem c4_counterexample :
    insertRow ⟨["geo_id", "v"], [(1, ["1", "a"])]⟩ ["abc", "x"] =
      .error .datatypeMismatch ∧
    InsertError.datatypeMismatch ≠ InsertError.pkConflict ∧
    insertRows ⟨["geo_id", "v"], [(1, ["1", "a"])]⟩ [["abc", "x"], ["2", "y"]] =
      .ok ⟨["geo_id", "v"], [(1, ["1", "a"]), (2, ["2", "y"])]⟩ := by decide

/-- C4 (amended): the loader catches exactly the failures raised as
`sqlite3.IntegrityError` — primary-key uniqueness violations and
datatype mismatches on the INTEGER PRIMARY KEY column — discarding
that single row with no change to the table and continuing with the
next row; every error outside IntegrityError (e.g. the
column-count-mismatch OperationalError) propagates uncaught and aborts
the run. -/
theorem c4_integrity_caught (t : Table) (r : List String) (rs : List (List String))
    (e : InsertError) :
    (insertRow t r = .error e → isIntegrityError e = true →
      insertRows t (r :: rs) = insertRows t rs) ∧
    (insertRow t r = .error e → isIntegrityError e = false →
      insertRows t (r :: rs) = .error e) ∧
    (isIntegrityError e = true ↔ e = .pkConflict ∨ e = .datatypeMismatch) := by
refine ⟨?_, ?_, ?_⟩
· intro he hint
  simp only [insertRows]
  rw [he]
  simp [hint]
· intro he hint
  simp only [insertRows]
  rw [he]
  simp [hint]
· cases e <;> simp [isIntegrityError]

/-- C4 witness: a concrete primary-key conflict is discarded and
iteration continues. -/
theorem c4_witness :
    insertRows ⟨["geo_id", "v"], [(2, ["2", "b"])]⟩ [["2", "c"]] =
      insertRows ⟨["geo_id", "v"], [(2, ["2", "b"])]⟩ [] :=
  (c4_integrity_caught ⟨["geo_id", "v"], [(2, ["2", "b"])]⟩ ["2", "c"] [] .pkConflict).1
    (by decide) (by decide)

/-! ### C5 — end-to-end normalization scenario -/

/-- The claim's fixed input: header ["NAME","state","county","tract","DP1_0078C"],
one data row. -/
def c5Input : DataFrame :=
  { cols := ["NAME", "state", "county", "tract", "DP1_0078C"],
    rows := [[some "Tract 1; County X; State Y", some "06", some "001",
              some "000100", some "523"]] }

/-- C5: on the fixed header and single data row of the claim, the
population-distribution normalization pipeline (rename, geo_id
synthesis, name split, reorder) yields geo_id = "06001000100",
State_Name = "State Y", County_Name = "County X" and
white_population = "523". -/
theorem c5_end_to_end :
    (cleanPipeline dpDictionary [c5Input]).map (fun df =>
      (colValue df "geo_id" 0, colValue df "State_Name" 0,
       colValue df "County_Name" 0, colValue df "white_population" 0))
    = some (some (some "06001000100"), some (some "State Y"),
            some (some "County X"), some (some "523")) := by decide

/-! ### C7 — column reordering -/

/-- C7: for every normalized table, whatever the input column order,
the reordered column list starts with exactly
[geo_id, state, State_Name, county, County_Name, tract] and continues
with the remaining columns in their original relative order (the tail
is a sublist of the input order containing every non-identifier
column). -/
theorem c7_column_order (cols : List String) :
    (newColumnOrder cols).take 6 = DESIRED_COLUMNS ∧
    List.Sublist ((newColumnOrder cols).drop 6) cols ∧
    ∀ c, c ∈ cols → c ∉ DESIRED_COLUMNS → c ∈ (newColumnOrder cols).drop 6 := by
have h6 : DESIRED_COLUMNS.length = 6 := rfl
unfold newColumnOrder
refine ⟨List.take_left' h6, ?_, ?_⟩
· rw [List.drop_left' h6]
  exact List.filter_sublist cols
· intro c hc hnd
  rw [List.drop_left' h6, List.mem_filter]
  exact ⟨hc, by simp [hnd]⟩

/-- Column list of the population table right before reordering. -/
def c7Cols : List String :=
  ["state", "county", "tract", "white_population", "geo_id", "County_Name", "State_Name"]

/-- C7 witness at the population table's pre-reorder column list. -/
theorem c7_witness :
    (newColumnOrder c7Cols).take 6 = DESIRED_COLUMNS ∧
    "white_population" ∈ (newColumnOrder c7Cols).drop 6 :=
  ⟨(c7_column_order c7Cols).1,
   (c7_column_order c7Cols).2.2 "white_population" (by decide) (by decide)⟩

/-! ### C10 — insert alignment with the declared schema -/

/-- C10: the created table declares the geo_id-matching primary-key
column first followed by the remaining headers in original order
(head/sublist conjuncts), and since `INSERT INTO t VALUES (...)` binds
the CSV row positionally to that declared order, the values land under
the columns named by their own headers exactly when the declared order
equals the header order — which holds if and only if the
geo_id-matching column is the first CSV header. -/
theorem c10_alignment (headers : List String) (pk : String)
    (_hf : findGeoId headers = some pk) (hnd : headers.Nodup) :
    (tableCols headers pk).head? = some pk ∧
    List.Sublist ((tableCols headers pk).drop 1) headers ∧
    ((tableCols headers pk) = headers ↔ headers.head? = some pk) := by
refine ⟨rfl, ?_, ?_, ?_⟩
· unfold tableCols
  exact List.filter_sublist headers
· intro h
  rw [← h]
  rfl
· intro h
  cases headers with
  | nil => simp at h
  | cons x t =>
    simp only [List.head?] at h
    cases h
    unfold tableCols
    rw [List.filter_cons]
    simp only [beq_self_eq_true, Bool.not_true, ite_false]
    congr 1
    apply List.filter_eq_self.mpr
    intro a ha
    have hax : a ≠ pk := fun he => (List.nodup_cons.mp hnd).1 (he ▸ ha)
    simp [hax]

/-- C10 witness: with geo_id first the declared order equals the
header order. -/
theorem c10_witness :
    (tableCols ["geo_id", "state", "v"] "geo_id").head? = some "geo_id" ∧
    List.Sublist ((tableCols ["geo_id", "state", "v"] "geo_id").drop 1)
      ["geo_id", "state", "v"] ∧
    ((tableCols ["geo_id", "state", "v"] "geo_id") = ["geo_id", "state", "v"] ↔
      (["geo_id", "state", "v"] : List String).head? = some "geo_id") :=
  c10_alignment ["geo_id", "state", "v"] "geo_id" (by decide) (by decide)

/-! ### C3 — when the name split fails -/

/-- A table with a second row whose NAME has only two "; "-separated parts. -/
def c3CtInput : DataFrame :=
  { cols := ["NAME"], rows := [[some "A; B; C"], [some "X; Y"]] }

/-- C3 counterexample: "X; Y" does not split into three parts, yet the
name-splitting step succeeds on the whole table (pandas pads the short
row with NaN because the expanded split still has three columns),
refuting "fails whenever any row's combined NAME field does not split
into exactly three parts". -/
theorem c3_counterexample :
    preprocess_name_column c3CtInput =
      .ok { cols := ["County_Name", "State_Name"],
            rows := [[some "B", some "C"], [some "Y", none]] } ∧
    (pySplit "X; Y" "; ").length ≠ 3 := by decide

/-- C3 (amended): the name-splitting step fails — the error
propagating uncaught — exactly when the expanded split width (the
maximum number of "; "-separated parts over the table's rows) differs
from three; rows with fewer parts are padded with nulls rather than
failing.  In particular it still succeeds when every row splits into
exactly three parts (the non-defective direction of the original
claim). -/
theorem c3_split_fails_iff_width (df : DataFrame) (i : Nat)
    (hi : df.idxOf? "NAME" = some i) :
    ((∃ df', preprocess_name_column df = .ok df') ↔ splitWidth df i = 3) ∧
    (df.rows ≠ [] → (∀ r ∈ df.rows, (nameParts (cellAt r i)).length = 3) →
      splitWidth df i = 3) := by
constructor
· constructor
  · rintro ⟨df', hdf⟩
    by_contra hne
    simp only [preprocess_name_column, hi] at hdf
    rw [if_neg hne] at hdf
    exact Except.noConfusion hdf
  · intro h3
    simp only [preprocess_name_column, hi]
    rw [if_pos h3]
    exact ⟨_, rfl⟩
· intro hne hall
  unfold splitWidth
  apply foldr_max_all_eq
  · simp [hne]
  · intro x hx
    rw [List.mem_map] at hx
    obtain ⟨r, hr, hxr⟩ := hx
    rw [← hxr]
    exact hall r hr

/-- A table whose single NAME value splits into exactly three parts. -/
def c3WInput : DataFrame := { cols := ["NAME"], rows := [[some "A; B; C"]] }

/-- C3 witness: the step succeeds when every row splits into three parts. -/
theorem c3_witness : ∃ df', preprocess_name_column c3WInput = Except.ok df' :=
  (c3_split_fails_iff_width c3WInput 0 (by decide)).1.mpr (by decide)

/-! ### C9 — loader skip on missing geo_id column -/

/-- C9: a discovered CSV whose headers contain no "geo_id"-like column
is skipped — the database is unchanged and processing of the remaining
files continues exactly as if the file were not there; otherwise the
primary key is the first header containing "geo_id" case-insensitively
(every earlier header fails the test). -/
theorem c9_loader_skip (db : Db) (f : CsvFile) (fs : List CsvFile)
    (hcsv : pyEndsWith f.name ".csv" = true) :
    (findGeoId f.headers = none →
      loadFile db f = .ok db ∧ loadAll db (f :: fs) = loadAll db fs) ∧
    (∀ pk, findGeoId f.headers = some pk →
      containsSub "geo_id" (pyLower pk) = true ∧
      ∃ pre post, f.headers = pre ++ pk :: post ∧
        ∀ h ∈ pre, containsSub "geo_id" (pyLower h) = false) := by
constructor
· intro hnone
  have hload : loadFile db f = .ok db := by
    simp [loadFile, hcsv, hnone]
  refine ⟨hload, ?_⟩
  simp [loadAll, hload]
· intro pk hpk
  exact find?_first _ f.headers pk hpk

/-- A CSV without any geo_id-like header. -/
def c9File : CsvFile := { name := "nokey.csv", headers := ["a", "b"], rows := [["1", "2"]] }

/-- C9 witness: the geo_id-less file leaves the database untouched and
the walk continues. -/
theorem c9_witness :
    loadFile [] c9File = .ok [] ∧ loadAll [] [c9File] = loadAll [] [] :=
  (c9_loader_skip [] c9File [] (by decide)).1 (by decide)

/-! ### C8 — outer join preserves unmatched rows -/

theorem mem_outerJoin_left (t₁ t₂ : KTable) (k : List String) (v : List Cell)
    (h₁ : (k, v) ∈ t₁.rows) (h₂ : k ∉ keys t₂) :
    (k, v ++ nullRow t₂.width) ∈ (outerJoin t₁ t₂).rows := by
have hf : t₂.rows.filter (fun kr₂ => kr₂.1 == k) = [] := by
  rw [List.filter_eq_nil_iff]
  intro kr₂ hkr
  rw [Bool.not_eq_true, beq_eq_false_iff_ne]
  exact fun hc => h₂ (hc ▸ List.mem_map_of_mem Prod.fst hkr)
simp only [outerJoin]
apply List.mem_append_left
rw [List.mem_flatMap]
refine ⟨(k, v), h₁, ?_⟩
simp [hf]

theorem mem_outerJoin_right (t₁ t₂ : KTable) (k : List String) (v : List Cell)
    (h₂ : (k, v) ∈ t₂.rows) (h₁ : k ∉ keys t₁) :
    (k, nullRow t₁.width ++ v) ∈ (outerJoin t₁ t₂).rows := by
simp only [outerJoin]
apply List.mem_append_right
rw [List.mem_map]
refine ⟨(k, v), ?_, rfl⟩
rw [List.mem_filter]
refine ⟨h₂, ?_⟩
rw [Bool.not_eq_true']
rw [List.any_eq_false]
intro kr hkr
rw [Bool.not_eq_true, beq_eq_false_iff_ne]
intro hc
exact h₁ (show k ∈ keys t₁ from (show kr.1 = k from hc) ▸ List.mem_map_of_mem Prod.fst hkr)

theorem keys_outerJoin_sub (t₁ t₂ : KTable) (k : List String)
    (h : k ∈ keys (outerJoin t₁ t₂)) : k ∈ keys t₁ ∨ k ∈ keys t₂ := by
unfold keys at h ⊢
simp only [outerJoin] at h
rw [List.map_append, List.mem_append] at h
rcases h with h | h
· left
  rw [List.mem_map] at h
  obtain ⟨row, hrow, hfst⟩ := h
  rw [List.mem_flatMap] at hrow
  obtain ⟨kr, hkr, hin⟩ := hrow
  have hkey : row.1 = kr.1 := by
    by_cases hc : (t₂.rows.filter (fun kr₂ => kr₂.1 == kr.1)).isEmpty = true
    · rw [if_pos hc, List.mem_singleton] at hin
      rw [hin]
    · rw [if_neg hc, List.mem_map] at hin
      obtain ⟨kr₂, _, he⟩ := hin
      rw [← he]
  rw [← hfst, hkey]
  exact List.mem_map_of_mem Prod.fst hkr
· right
  rw [List.mem_map] at h
  obtain ⟨row, hrow, hfst⟩ := h
  rw [List.mem_map] at hrow
  obtain ⟨kr₂, hkr₂, he⟩ := hrow
  rw [← hfst, ← he]
  show kr₂.1 ∈ List.map Prod.fst t₂.rows
  exact List.mem_map_of_mem Prod.fst (List.mem_of_mem_filter hkr₂)

/-- C8: the merge of the three normalized tables is an outer join on
the identifier key — a record whose key appears in exactly one source
table still appears in (dp ⋈ dhc) ⋈ cre, with every non-key column of
the two non-matching datasets null. -/
theorem c8_outer_join_unmatched (A B C : KTable) (k : List String) (v : List Cell) :
    ((k, v) ∈ A.rows → k ∉ keys B → k ∉ keys C →
      (k, v ++ nullRow B.width ++ nullRow C.width) ∈ (mergeCensus A B C).rows) ∧
    ((k, v) ∈ B.rows → k ∉ keys A → k ∉ keys C →
      (k, nullRow A.width ++ v ++ nullRow C.width) ∈ (mergeCensus A B C).rows) ∧
    ((k, v) ∈ C.rows → k ∉ keys A → k ∉ keys B →
      (k, nullRow (A.width + B.width) ++ v) ∈ (mergeCensus A B C).rows) := by
refine ⟨?_, ?_, ?_⟩
· intro hA hB hC
  exact mem_outerJoin_left (outerJoin A B) C k (v ++ nullRow B.width)
    (mem_outerJoin_left A B k v hA hB) hC
· intro hB hA hC
  exact mem_outerJoin_left (outerJoin A B) C k (nullRow A.width ++ v)
    (mem_outerJoin_right A B k v hB hA) hC
· intro hC hA hB
  apply mem_outerJoin_right (outerJoin A B) C k v hC
  intro hk
  rcases keys_outerJoin_sub A B k hk with h | h
  · exact hA h
  · exact hB h

/-- Population-style table owning the only occurrence of the key. -/
def c8A : KTable := { width := 1, rows := [(["1", "2", "3", "4", "5", "6"], [some "x"])] }

/-- Housing-style table without the key. -/
def c8B : KTable := { width := 2, rows := [] }

/-- Resilience-style table without the key. -/
def c8C : KTable := { width := 3, rows := [] }

/-- C8 witness: a key present only in the first table survives the two
outer merges with the other datasets' columns null. -/
theorem c8_witness :
    (["1", "2", "3", "4", "5", "6"],
      [some "x"] ++ nullRow c8B.width ++ nullRow c8C.width)
      ∈ (mergeCensus c8A c8B c8C).rows :=
  (c8_outer_join_unmatched c8A c8B c8C ["1", "2", "3", "4", "5", "6"] [some "x"]).1
    (by decide) (by decide) (by decide)

theorem get?_append_right_len {α : Type} (l₁ l₂ : List α) (m : Nat) :
    (l₁ ++ l₂).get? (l₁.length + m) = l₂.get? m := by
rw [List.get?_append_right (Nat.le_add_right _ _)]
congr 1
omega

theorem idxAux_cons_self (c : String) (l : List String) (n : Nat) :
    idxAux c (c :: l) n = some n := by
simp [idxAux]

theorem idxAux_cons_ne (c x : String) (l : List String) (n : Nat) (h : ¬x = c) :
    idxAux c (x :: l) n = idxAux c l (n + 1) := by
simp [idxAux, h]

theorem mapCol_eq_of_idx (df : DataFrame) (c : String) (f : Cell → Cell) (i : Nat)
    (h : df.idxOf? c = some i) :
    mapCol df c f =
      { cols := df.cols, rows := df.rows.map (fun r => r.set i (f (cellAt r i))) } := by
unfold mapCol
rw [h]

/-! ### C6 — geo_id is the bare concatenation of the three code fields -/

theorem pyStr_cellAt_set (r : List Cell) (m x : Nat) :
    pyStr (cellAt (r.set m (some (pyStr (cellAt r m)))) x) = pyStr (cellAt r x) := by
unfold cellAt
rw [List.get?_set]
by_cases hmx : m = x
· subst hmx
  rw [if_pos rfl]
  cases hrm : r.get? m with
  | none => simp
  | some cell => simp [pyStr]
· rw [if_neg hmx]

/-- C6: for every record produced by `add_geo_id`, the appended geo_id
cell equals the plain concatenation state ++ county ++ tract of the
record's three geographic-code fields taken as strings (Python `str`),
with no separator, so its length is exactly the sum of the three
fields' lengths. -/
theorem c6_geo_id_concat (df df' : DataFrame) (s c t : String) (i j k n : Nat)
    (r : List Cell)
    (hs : df.idxOf? s = some i) (hc : df.idxOf? c = some j) (ht : df.idxOf? t = some k)
    (hg : "geo_id" ∉ df.cols)
    (hw : ∀ row ∈ df.rows, row.length = df.cols.length)
    (hadd : add_geo_id df s c t = some df')
    (hr : df.rows.get? n = some r) :
    colValue df' "geo_id" n =
      some (some (pyStr (cellAt r i) ++ pyStr (cellAt r j) ++ pyStr (cellAt r k))) ∧
    (pyStr (cellAt r i) ++ pyStr (cellAt r j) ++ pyStr (cellAt r k)).length =
      (pyStr (cellAt r i)).length + (pyStr (cellAt r j)).length +
        (pyStr (cellAt r k)).length := by
refine ⟨?_, by rw [String.length_append, String.length_append]⟩
have hs' : idxAux s df.cols 0 = some i := hs
have hc' : idxAux c df.cols 0 = some j := hc
have ht' : idxAux t df.cols 0 = some k := ht
have hgid : idxAux "geo_id" df.cols 0 = none := idxAux_eq_none _ _ _ hg
simp only [add_geo_id, astypeStr, mapCol, setCol, DataFrame.idxOf?, hs, hs', hc', ht',
  hgid] at hadd
injection hadd with hX
subst hX
have hrA : (((df.rows.map (fun row => row.set i (some (pyStr (cellAt row i))))).map
      (fun row => row.set j (some (pyStr (cellAt row j))))).map
      (fun row => row.set k (some (pyStr (cellAt row k))))).get? n =
    some ((((r.set i (some (pyStr (cellAt r i)))).set j
      (some (pyStr (cellAt (r.set i (some (pyStr (cellAt r i)))) j)))).set k
      (some (pyStr (cellAt ((r.set i (some (pyStr (cellAt r i)))).set j
        (some (pyStr (cellAt (r.set i (some (pyStr (cellAt r i)))) j)))) k))))) := by
  rw [List.get?_map, List.get?_map, List.get?_map, hr]
  rfl
have hlenr : r.length = df.cols.length := hw r (List.get?_mem hr)
generalize hA : ((r.set i (some (pyStr (cellAt r i)))).set j
      (some (pyStr (cellAt (r.set i (some (pyStr (cellAt r i)))) j)))).set k
      (some (pyStr (cellAt ((r.set i (some (pyStr (cellAt r i)))).set j
        (some (pyStr (cellAt (r.set i (some (pyStr (cellAt r i)))) j)))) k))) = rA at hrA
have hpyA : ∀ x : Nat, pyStr (cellAt rA x) = pyStr (cellAt r x) := by
  intro x
  rw [← hA, pyStr_cellAt_set, pyStr_cellAt_set, pyStr_cellAt_set]
have hlenA : rA.length = df.cols.length := by
  rw [← hA, List.length_set, List.length_set, List.length_set, hlenr]
have hvals : ((((df.rows.map (fun row => row.set i (some (pyStr (cellAt row i))))).map
      (fun row => row.set j (some (pyStr (cellAt row j))))).map
      (fun row => row.set k (some (pyStr (cellAt row k))))).map
      (fun row => some (pyStr (cellAt row i) ++ pyStr (cellAt row j) ++
        pyStr (cellAt row k)))).get? n =
    some (some (pyStr (cellAt r i) ++ pyStr (cellAt r j) ++ pyStr (cellAt r k))) := by
  rw [List.get?_map, hrA]
  simp only [Option.map_some']
  rw [hpyA, hpyA, hpyA]
have hidx : idxAux "geo_id" (df.cols ++ ["geo_id"]) 0 = some df.cols.length := by
  rw [idxAux_append_of_not_mem _ _ _ _ hg, idxAux, if_pos rfl, Nat.zero_add]
unfold colValue DataFrame.idxOf?
simp only
rw [hidx]
rw [zipWith_get? _ _ _ n rA
  (some (pyStr (cellAt r i) ++ pyStr (cellAt r j) ++ pyStr (cellAt r k))) hrA hvals]
simp only [cellAt]
rw [← hlenA, List.get?_concat_length]
rfl

/-! ### C2 — the name split keeps only county and state names -/

/-- A one-row raw table whose NAME field is "A; B; C". -/
def c2CtInput : DataFrame := { cols := ["NAME"], rows := [[some "A; B; C"]] }

/-- C2 counterexample: normalizing a table whose NAME is "A; B; C"
removes the combined field (as claimed) but also discards the
tract-name part "A": the output has only the County_Name and
State_Name columns, refuting "three separate name fields (tract name,
county name, state name) that are present in the normalized record". -/
theorem c2_counterexample :
    preprocess_name_column c2CtInput =
      .ok { cols := ["County_Name", "State_Name"], rows := [[some "B", some "C"]] } ∧
    pySplit "A; B; C" "; " = ["A", "B", "C"] := by decide

/-- C2 (amended): for every raw table whose NAME fields each split on
"; " into exactly three parts, normalization splits the field into
tract/county/state parts but keeps only two of them: County_Name and
State_Name columns are appended with the trimmed second and third
parts, while the tract-name part is dropped together with the original
combined NAME field (the code drops the Census_Tract column it just
created).  Splitting "A; B; C" yields county = "B", state = "C" and no
tract-name field. -/
theorem c2_split_drops_tract (df : DataFrame) (i : Nat)
    (hi : df.idxOf? "NAME" = some i)
    (hct : "Census_Tract" ∉ df.cols)
    (hcn : "County_Name" ∉ df.cols)
    (hsn : "State_Name" ∉ df.cols)
    (hw : ∀ r ∈ df.rows, r.length = df.cols.length)
    (hall : ∀ r ∈ df.rows, ∃ s a b c, cellAt r i = some s ∧ pySplit s "; " = [a, b, c])
    (hne : df.rows ≠ []) :
    ∃ df', preprocess_name_column df = .ok df' ∧
      df'.cols = df.cols.filter (fun c => !(c == "NAME")) ++
        ["County_Name", "State_Name"] ∧
      "NAME" ∉ df'.cols ∧ "Census_Tract" ∉ df'.cols ∧
      ∀ n r s a b c, df.rows.get? n = some r → cellAt r i = some s →
        pySplit s "; " = [a, b, c] →
        colValue df' "County_Name" n = some (some (pyStrip b)) ∧
        colValue df' "State_Name" n = some (some (pyStrip c)) := by
have h3 : splitWidth df i = 3 := by
  unfold splitWidth
  apply foldr_max_all_eq
  · simp [hne]
  · intro x hx
    rw [List.mem_map] at hx
    obtain ⟨r, hr, hxr⟩ := hx
    obtain ⟨s, a, b, c, hcell, hsplit⟩ := hall r hr
    rw [← hxr, hcell]
    simp [nameParts, hsplit]
have hbranch : preprocess_name_column df = .ok
    (mapCol (mapCol (dropCols
        { cols := df.cols ++ ["Census_Tract", "County_Name", "State_Name"],
          rows := df.rows.map
            (fun r => r ++ padTo (splitWidth df i) (nameParts (cellAt r i))) }
        ["Census_Tract", "NAME"]) "State_Name" (Option.map pyStrip))
      "County_Name" (Option.map pyStrip)) := by
  simp only [preprocess_name_column, hi]
  rw [if_pos h3]
have hFk : df.cols.filter (fun c => !(["Census_Tract", "NAME"].contains c)) =
    df.cols.filter (fun c => !(c == "NAME")) := by
  apply List.filter_congr
  intro x hx
  have hxct : ¬x = "Census_Tract" := fun he => hct (he ▸ hx)
  by_cases hxn : x = "NAME"
  · subst hxn
    decide
  · have h1 : (["Census_Tract", "NAME"].contains x) = false := by
      simp [List.contains]
      exact ⟨hxct, hxn⟩
    have h2 : (x == "NAME") = false := beq_eq_false_iff_ne.mpr hxn
    rw [h1, h2]
have hfilter : (df.cols ++ ["Census_Tract", "County_Name", "State_Name"]).filter
    (fun c => !(["Census_Tract", "NAME"].contains c)) =
    df.cols.filter (fun c => !(c == "NAME")) ++ ["County_Name", "State_Name"] := by
  rw [List.filter_append, hFk]
  congr 1
set df1 : DataFrame :=
  { cols := df.cols ++ ["Census_Tract", "County_Name", "State_Name"],
    rows := df.rows.map
      (fun r => r ++ padTo (splitWidth df i) (nameParts (cellAt r i))) } with hdf1
set F : List String := df.cols.filter (fun c => !(c == "NAME")) with hF
have hD2eq : dropCols df1 ["Census_Tract", "NAME"] =
    { cols := F ++ ["County_Name", "State_Name"],
      rows := df1.rows.map (maskKeep (df1.cols.map
        (fun c => !(["Census_Tract", "NAME"].contains c)))) } := by
  unfold dropCols
  congr 1
have hFnotCN : "County_Name" ∉ F := by
  rw [hF]
  exact fun hmem => hcn (List.mem_of_mem_filter hmem)
have hFnotSN : "State_Name" ∉ F := by
  rw [hF]
  exact fun hmem => hsn (List.mem_of_mem_filter hmem)
have hidxCN : idxAux "County_Name" (F ++ ["County_Name", "State_Name"]) 0 =
    some F.length := by
  rw [idxAux_append_of_not_mem _ _ _ _ hFnotCN, Nat.zero_add, idxAux_cons_self]
have hidxSN : idxAux "State_Name" (F ++ ["County_Name", "State_Name"]) 0 =
    some (F.length + 1) := by
  rw [idxAux_append_of_not_mem _ _ _ _ hFnotSN, Nat.zero_add,
    idxAux_cons_ne _ _ _ _ (by decide), idxAux_cons_self]
have hD2idxSN : (dropCols df1 ["Census_Tract", "NAME"]).idxOf? "State_Name" =
    some (F.length + 1) := by
  rw [hD2eq]
  exact hidxSN
have hD3eq := mapCol_eq_of_idx (dropCols df1 ["Census_Tract", "NAME"]) "State_Name"
  (Option.map pyStrip) (F.length + 1) hD2idxSN
have hD3idxCN : (mapCol (dropCols df1 ["Census_Tract", "NAME"]) "State_Name"
    (Option.map pyStrip)).idxOf? "County_Name" = some F.length := by
  unfold DataFrame.idxOf?
  rw [mapCol_cols, hD2eq]
  exact hidxCN
have hD4eq := mapCol_eq_of_idx (mapCol (dropCols df1 ["Census_Tract", "NAME"])
  "State_Name" (Option.map pyStrip)) "County_Name" (Option.map pyStrip) F.length hD3idxCN
refine ⟨_, hbranch, ?_, ?_, ?_, ?_⟩
· rw [mapCol_cols, mapCol_cols, hD2eq]
· rw [mapCol_cols, mapCol_cols, hD2eq]
  show "NAME" ∉ F ++ ["County_Name", "State_Name"]
  intro hmem
  rcases List.mem_append.mp hmem with h | h
  · rw [hF] at h
    have := (List.mem_filter.mp h).2
    simp at this
  · exact absurd h (by decide)
· rw [mapCol_cols, mapCol_cols, hD2eq]
  show "Census_Tract" ∉ F ++ ["County_Name", "State_Name"]
  intro hmem
  rcases List.mem_append.mp hmem with h | h
  · rw [hF] at h
    exact hct (List.mem_of_mem_filter h)
  · exact absurd h (by decide)
· intro n r s a b c hrn hcell hsplit
  have hpad : padTo (splitWidth df i) (nameParts (cellAt r i)) =
      [some a, some b, some c] := by
    rw [hcell, h3]
    simp [nameParts, hsplit, padTo]
  have hrlen : r.length = df.cols.length := hw r (List.get?_mem hrn)
  have hmask2 : maskKeep ((df.cols ++ ["Census_Tract", "County_Name", "State_Name"]).map
        (fun c => !(["Census_Tract", "NAME"].contains c)))
        (r ++ [some a, some b, some c]) =
      maskKeep (df.cols.map (fun c => !(["Census_Tract", "NAME"].contains c))) r ++
        [some b, some c] := by
    rw [List.map_append, maskKeep_append _ _ _ _ (by rw [List.length_map, hrlen])]
    rfl
  set M : List Cell :=
    maskKeep (df.cols.map (fun c => !(["Census_Tract", "NAME"].contains c))) r with hM
  have hMlen : M.length = F.length := by
    rw [hM, maskKeep_length _ df.cols r hrlen, hFk]
  have hrow2get1 : (M ++ [some b, some c]).get? F.length = some (some b) := by
    rw [← hMlen]
    simpa using get?_append_right_len M [some b, some c] 0
  have hrow2get2 : (M ++ [some b, some c]).get? (F.length + 1) = some (some c) := by
    rw [← hMlen]
    exact (get?_append_right_len M [some b, some c] 1).trans rfl
  set row2 : List Cell := M ++ [some b, some c] with hrow2
  set row3 : List Cell :=
    row2.set (F.length + 1) (Option.map pyStrip (cellAt row2 (F.length + 1))) with hrow3
  have hcell2SN : cellAt row2 (F.length + 1) = some c := by
    unfold cellAt
    rw [hrow2get2]
    rfl
  have hrow3' : row3 = row2.set (F.length + 1) (some (pyStrip c)) := by
    rw [hrow3, hcell2SN]
    rfl
  have hget3CN : row3.get? F.length = some (some b) := by
    rw [hrow3', List.get?_set, if_neg (by omega), hrow2get1]
  have hcell3CN : cellAt row3 F.length = some b := by
    unfold cellAt
    rw [hget3CN]
    rfl
  set row4 : List Cell :=
    row3.set F.length (Option.map pyStrip (cellAt row3 F.length)) with hrow4
  have hget4CN : row4.get? F.length = some (some (pyStrip b)) := by
    rw [hrow4, hcell3CN, List.get?_set, if_pos rfl, hget3CN]
    rfl
  have hget4SN : row4.get? (F.length + 1) = some (some (pyStrip c)) := by
    rw [hrow4, List.get?_set, if_neg (by omega), hrow3', List.get?_set, if_pos rfl,
      hrow2get2]
    rfl
  have hrowsget : ((mapCol (mapCol (dropCols df1 ["Census_Tract", "NAME"]) "State_Name"
      (Option.map pyStrip)) "County_Name" (Option.map pyStrip)).rows).get? n =
      some row4 := by
    rw [hD4eq]
    show (((mapCol (dropCols df1 ["Census_Tract", "NAME"]) "State_Name"
      (Option.map pyStrip)).rows).map _).get? n = _
    rw [hD3eq]
    show ((((dropCols df1 ["Census_Tract", "NAME"]).rows).map _).map _).get? n = _
    rw [hD2eq]
    show ((((df1.rows.map _).map _).map _) : List (List Cell)).get? n = _
    rw [hdf1]
    show ((((df.rows.map _).map _).map _).map _).get? n = _
    rw [List.get?_map, List.get?_map, List.get?_map, List.get?_map, hrn]
    simp only [Option.map_some']
    rw [hpad, hmask2, ← hrow3, ← hrow4]
  have hidxD4CN : (mapCol (mapCol (dropCols df1 ["Census_Tract", "NAME"]) "State_Name"
      (Option.map pyStrip)) "County_Name" (Option.map pyStrip)).idxOf? "County_Name" =
      some F.length := by
    unfold DataFrame.idxOf?
    rw [mapCol_cols, mapCol_cols, hD2eq]
    exact hidxCN
  have hidxD4SN : (mapCol (mapCol (dropCols df1 ["Census_Tract", "NAME"]) "State_Name"
      (Option.map pyStrip)) "County_Name" (Option.map pyStrip)).idxOf? "State_Name" =
      some (F.length + 1) := by
    unfold DataFrame.idxOf?
    rw [mapCol_cols, mapCol_cols, hD2eq]
    exact hidxSN
  constructor
  · unfold colValue
    rw [hidxD4CN, hrowsget]
    show some ((row4.get? F.length).getD none) = some (some (pyStrip b))
    rw [hget4CN]
    rfl
  · unfold colValue
    rw [hidxD4SN, hrowsget]
    show some ((row4.get? (F.length + 1)).getD none) = some (some (pyStrip c))
    rw [hget4SN]
    rfl

/-- C2 witness: on the one-row table with NAME = "A; B; C" the step
succeeds with County_Name = trim "B" and State_Name = trim "C". -/
theorem c2_witness :
    ∃ df', preprocess_name_column c2CtInput = Except.ok df' ∧
      colValue df' "County_Name" 0 = some (some (pyStrip "B")) ∧
      colValue df' "State_Name" 0 = some (some (pyStrip "C")) := by
obtain ⟨df', h1, _, _, h5⟩ := c2_split_drops_tract c2CtInput 0 (by decide) (by decide)
  (by decide) (by decide) (by decide)
  (by
    intro r hr
    have hr' : r = [some "A; B; C"] := by simpa [c2CtInput] using hr
    subst hr'
    exact ⟨"A; B; C", "A", "B", "C", rfl, by decide⟩)
  (by decide)
obtain ⟨hcv, hsv⟩ := h5.2 0 [some "A; B; C"] "A; B; C" "A" "B" "C" rfl rfl (by decide)
exact ⟨df', h1, hcv, hsv⟩

/-- The code-column table fed to `add_geo_id` in the C6 witness. -/
def c6Df : DataFrame :=
  { cols := ["state", "county", "tract"],
    rows := [[some "06", some "001", some "000100"]] }

/-- The table `add_geo_id` produces from `c6Df`. -/
def c6Out : DataFrame :=
  { cols := ["state", "county", "tract", "geo_id"],
    rows := [[some "06", some "001", some "000100", some "06001000100"]] }

/-- The single row of `c6Df`. -/
def c6Row : List Cell := [some "06", some "001", some "000100"]

/-- C6 witness: geo_id of the concrete record is the bare
concatenation "06" ++ "001" ++ "000100", of length 2 + 3 + 6. -/
theorem c6_witness :
    colValue c6Out "geo_id" 0 =
      some (some (pyStr (cellAt c6Row 0) ++ pyStr (cellAt c6Row 1) ++
        pyStr (cellAt c6Row 2))) ∧
    (pyStr (cellAt c6Row 0) ++ pyStr (cellAt c6Row 1) ++ pyStr (cellAt c6Row 2)).length =
      (pyStr (cellAt c6Row 0)).length + (pyStr (cellAt c6Row 1)).length +
        (pyStr (cellAt c6Row 2)).length :=
  c6_geo_id_concat c6Df c6Out "state" "county" "tract" 0 1 2 0 c6Row
    (by decide) (by decide) (by decide) (by decide) (by decide) (by decide) (by decide)

end CensusETL
